import Mathlib

/-!
Shallow embedding of the rule-based anomaly-detection pipeline
(variance analysis, correlation engine, anomaly synthesis) of the
Variance-Analysis-for-Anomaly-Detection repository.

Python floats are modelled as rationals; all inputs decisive for the
verified claims are exact at the values involved.  Python dicts are
modelled as association lists in insertion order; a raising dict
subscript is modelled in the Except monad, a .get with default by a
total lookup.  Python string formatting of numbers (for example one
decimal place, or thousands separators) is abstracted by the single
function fmt below: no verified claim depends on the exact digits
rendered into description strings.
-/

namespace VAD

/-- Abstract stand-in for Python numeric string formatting. -/
def fmt (q : ℚ) : String := toString q

/-- Lookup in a dict modelled as an association list, raising (Except.error)
on a missing key, mirroring a Python dict subscript. -/
def dictGet {α : Type} (d : List (String × α)) (k : String) : Except String α :=
  match d.lookup k with
  | some v => Except.ok v
  | none => Except.error ("KeyError: " ++ k)

/-- Total lookup with default, mirroring Python dict.get(key, default). -/
def dictGetD {α : Type} (d : List (String × α)) (k : String) (v : α) : α :=
  (d.lookup k).getD v

/-! ## utils/calculations.py -/

/-- Port of utils.calculations.has_sign_change. -/
def has_sign_change (current previous : ℚ) : Bool :=
  if previous = 0 ∧ current ≠ 0 then true
  else if previous ≠ 0 ∧ current = 0 then true
  else if previous > 0 ∧ current < 0 then true
  else if previous < 0 ∧ current > 0 then true
  else false

/-- Port of utils.calculations.calculate_variance_percentage. -/
def calculate_variance_percentage (current previous : ℚ) : ℚ :=
  if previous = 0 then (if current ≠ 0 then 100 else 0)
  else ((current - previous) / |previous|) * 100

/-- Port of utils.calculations.calculate_variance_amount. -/
def calculate_variance_amount (current previous : ℚ) : ℚ :=
  current - previous

/-! ## config/settings.py (the parts the detection pipeline reads) -/

/-- One entry of account_mappings.materiality_thresholds: a level with its
accounts list and optional threshold (dict.get defaults modelled by Option). -/
structure MaterialityConfig where
  accounts : List String
  threshold : Option ℚ
deriving Repr, DecidableEq

/-- The severity_levels table: tier name to a dict of threshold entries.
Kept as raw nested association lists because Settings.get_severity_thresholds
returns the raw dict and the detector subscripts it (raising on missing keys). -/
abbrev SeverityTable := List (String × List (String × ℚ))

/-- Configuration state read by the pipeline, mirroring the fields of
config.settings.Settings that the analysis layer consults. -/
structure Settings where
  account_tolerances : List (String × ℚ)
  recurring_account_thresholds : List (String × ℚ)
  variance_threshold : Option ℚ
  severity_levels : Option SeverityTable
  quarterly_patterns : List (String × List (String × ℚ))
  materiality_thresholds : List (String × MaterialityConfig)
  recurring_account_codes : List String
  cyclical_account_codes : List String

/-- Port of Settings.get_variance_threshold (account_tolerances first, then
recurring_accounts thresholds, then the global default 5.0; an empty category
string is falsy in Python and skips the category lookups). -/
def get_variance_threshold (s : Settings) (account_category : String) : ℚ :=
  if account_category ≠ "" then
    match s.account_tolerances.lookup account_category with
    | some t => t
    | none =>
      match s.recurring_account_thresholds.lookup account_category with
      | some t => t
      | none => s.variance_threshold.getD 5
  else s.variance_threshold.getD 5

/-- Default severity_levels table returned by Settings.get_severity_thresholds
when thresholds.yaml does not configure severity_levels. -/
def default_severity_levels : SeverityTable :=
  [("critical", [("variance_threshold", 20), ("absolute_threshold", 1000000)]),
   ("high", [("variance_threshold", 10), ("absolute_threshold", 500000)]),
   ("medium", [("variance_threshold", 5), ("absolute_threshold", 100000)])]

/-- Port of Settings.get_severity_thresholds. -/
def get_severity_thresholds (s : Settings) : SeverityTable :=
  s.severity_levels.getD default_severity_levels

/-- Port of Settings.get_materiality_threshold: first materiality level whose
accounts list contains the code wins; default 5.0 throughout. -/
def get_materiality_threshold_list : List (String × MaterialityConfig) → String → ℚ
  | [], _ => 5
  | (_, config) :: rest, account_code =>
    if config.accounts.contains account_code then config.threshold.getD 5
    else get_materiality_threshold_list rest account_code

/-- Port of Settings.get_materiality_threshold. -/
def get_materiality_threshold (s : Settings) (account_code : String) : ℚ :=
  get_materiality_threshold_list s.materiality_thresholds account_code

/-- Port of Settings.get_recurring_account_codes. -/
def get_recurring_account_codes (s : Settings) : List String :=
  s.recurring_account_codes

/-- Port of Settings.get_cyclical_account_codes. -/
def get_cyclical_account_codes (s : Settings) : List String :=
  s.cyclical_account_codes

/-! ## analysis/rule_violations.py -/

/-- Port of rule_violations.RuleCategory. -/
inductive RuleCategory
  | variance_threshold
  | correlation_violation
  | sign_change
  | recurring_account
  | quarterly_pattern
  | materiality
deriving Repr, DecidableEq

/-- Port of rule_violations.RuleViolation. -/
structure RuleViolation where
  rule_id : String
  rule_name : String
  category : RuleCategory
  description : String
  threshold_value : Option ℚ := none
  severity_impact : Option String := none
deriving Repr, DecidableEq

/-- Port of rule_violations.ALL_RULES (identifier and display data; the merged
dict of the variance, sign-change, recurring, quarterly, materiality and
correlation rule tables, in merge order). -/
def ALL_RULES : List (String × RuleViolation) :=
  [("VT001", { rule_id := "VT001", rule_name := "General Variance Threshold",
               category := .variance_threshold,
               description := "Account variance exceeds default 5% threshold",
               threshold_value := some 5 }),
   ("VT002", { rule_id := "VT002", rule_name := "G&A Account Variance Threshold",
               category := .variance_threshold,
               description := "General & Administrative account variance exceeds 10% threshold",
               threshold_value := some 10 }),
   ("VT003", { rule_id := "VT003", rule_name := "Borrowings Strict Threshold",
               category := .variance_threshold,
               description := "Borrowings account variance exceeds strict 2% threshold",
               threshold_value := some 2,
               severity_impact := some "High materiality due to financial impact" }),
   ("VT004", { rule_id := "VT004", rule_name := "Recurring Account Stability Threshold",
               category := .variance_threshold,
               description := "Recurring account variance exceeds 5% stability threshold",
               threshold_value := some 5,
               severity_impact := some "Expected to be stable period-over-period" }),
   ("VT005", { rule_id := "VT005", rule_name := "Depreciation Stability Threshold",
               category := .variance_threshold,
               description := "Depreciation account variance exceeds 5% stability threshold",
               threshold_value := some 5,
               severity_impact := some "Should be predictable based on asset base" }),
   ("SC001", { rule_id := "SC001", rule_name := "Account Sign Change Detection",
               category := .sign_change,
               description := "Account changed from positive to negative or vice versa",
               severity_impact := some "Indicates potential data error or significant business event" }),
   ("SC002", { rule_id := "SC002", rule_name := "Zero Balance Change Detection",
               category := .sign_change,
               description := "Account changed from zero to non-zero or vice versa",
               severity_impact := some "May indicate account activation/deactivation" }),
   ("RA001", { rule_id := "RA001", rule_name := "Recurring Account Anomaly",
               category := .recurring_account,
               description := "Unusual variance in normally stable recurring account",
               severity_impact := some "Requires investigation for operational changes" }),
   ("QP001", { rule_id := "QP001", rule_name := "Quarterly Billing Cycle Deviation",
               category := .quarterly_pattern,
               description := "Deviation from expected quarterly billing pattern",
               severity_impact := some "May affect revenue recognition timing" }),
   ("QP002", { rule_id := "QP002", rule_name := "Cyclical Account Pattern Break",
               category := .quarterly_pattern,
               description := "Break in expected cyclical account behavior",
               severity_impact := some "Check billing cycles and collection patterns" }),
   ("MT001", { rule_id := "MT001", rule_name := "High Materiality Account Variance",
               category := .materiality,
               description := "High materiality account exceeds specific variance threshold",
               severity_impact := some "Significant financial statement impact" }),
   ("MT002", { rule_id := "MT002", rule_name := "Medium Materiality Account Variance",
               category := .materiality,
               description := "Medium materiality account exceeds variance threshold",
               severity_impact := some "Moderate financial statement impact" }),
   ("MT003", { rule_id := "MT003", rule_name := "Low Materiality Account Variance",
               category := .materiality,
               description := "Low materiality account exceeds variance threshold",
               severity_impact := some "Limited financial statement impact" }),
   ("CR001", { rule_id := "CR001", rule_name := "Investment Properties vs Depreciation Correlation",
               category := .correlation_violation,
               description := "Investment Properties and Depreciation should move together",
               severity_impact := some "Asset base changes should reflect in depreciation" }),
   ("CR002", { rule_id := "CR002", rule_name := "Loan Balance vs Interest Expenses Correlation",
               category := .correlation_violation,
               description := "Loan principal and interest costs should correlate",
               severity_impact := some "Debt changes should reflect in interest expense" }),
   ("CR003", { rule_id := "CR003", rule_name := "Cash Deposits vs Bank Interest Income Correlation",
               category := .correlation_violation,
               description := "Cash deposits and interest income should correlate",
               severity_impact := some "Cash levels should generate proportional interest" }),
   ("CR004", { rule_id := "CR004", rule_name := "Trade Receivables Quarterly Billing Cycle",
               category := .correlation_violation,
               description := "Trade receivables should follow quarterly billing patterns",
               severity_impact := some "Billing cycle timing affects receivables levels" }),
   ("CR005", { rule_id := "CR005", rule_name := "Unbilled Revenue Quarterly Recognition Pattern",
               category := .correlation_violation,
               description := "Unbilled revenue should follow quarterly recognition patterns",
               severity_impact := some "Revenue recognition timing and advance collections" }),
   ("CR006", { rule_id := "CR006", rule_name := "Unearned Revenue vs Advance Collection Correlation",
               category := .correlation_violation,
               description := "Unearned revenue should correlate with advance collections",
               severity_impact := some "Advance payments affect unearned revenue levels" }),
   ("CR007", { rule_id := "CR007", rule_name := "Capital Expenditure vs VAT Deductible Correlation",
               category := .correlation_violation,
               description := "Capital expenditures should correlate with VAT deductible",
               severity_impact := some "CapEx activities generate deductible VAT" }),
   ("CR008", { rule_id := "CR008", rule_name := "Occupancy Rate vs Revenue Correlation",
               category := .correlation_violation,
               description := "Occupancy rates should correlate with rental revenue",
               severity_impact := some "Occupancy changes directly affect revenue" }),
   ("CR009", { rule_id := "CR009", rule_name := "Maintenance Expenses vs OPEX Correlation",
               category := .correlation_violation,
               description := "Maintenance expenses should correlate with operating expenses",
               severity_impact := some "Maintenance activities drive OPEX fluctuations" }),
   ("CR010", { rule_id := "CR010", rule_name := "Asset Disposal vs Depreciation Negative Correlation",
               category := .correlation_violation,
               description := "Asset disposals should reduce depreciation base",
               severity_impact := some "Asset sales should decrease future depreciation" }),
   ("CR011", { rule_id := "CR011", rule_name := "New Lease Contracts vs Revenue Correlation",
               category := .correlation_violation,
               description := "New leases should correlate with revenue increases",
               severity_impact := some "New tenants should increase rental income" }),
   ("CR012", { rule_id := "CR012", rule_name := "Lease Termination vs Revenue Negative Correlation",
               category := .correlation_violation,
               description := "Lease terminations should correlate with revenue decreases",
               severity_impact := some "Tenant departures should reduce rental income" }),
   ("CR013", { rule_id := "CR013", rule_name := "FX Rate vs FX Gain/Loss Correlation",
               category := .correlation_violation,
               description := "FX rate changes should correlate with FX gain/loss",
               severity_impact := some "Currency fluctuations affect FX-related accounts" })]

/-- Port of rule_violations.get_rule_violation. -/
def get_rule_violation (rule_id : String) : Option RuleViolation :=
  ALL_RULES.lookup rule_id

/-- Port of rule_violations.get_variance_rule_for_category. -/
def get_variance_rule_for_category (category : String) : String :=
  if category = "opex" ∨ category = "staff_costs" ∨ category = "other_expenses" then "VT002"
  else if category = "borrowings" then "VT003"
  else if category = "depreciation" then "VT005"
  else "VT001"

/-- Left-pad a digit string with zeros up to the given width. -/
def zeroPad (width : Nat) (s : String) : String :=
  String.mk (List.replicate (width - s.length) '0') ++ s

/-- Port of the Python format expression CR followed by the rule id rendered
with format code 03d (zero-padded to overall width 3, sign included). -/
def format03d (n : ℤ) : String :=
  if n < 0 then "-" ++ zeroPad 2 (toString n.natAbs) else zeroPad 3 (toString n.natAbs)

/-- Port of rule_violations.get_correlation_rule_id. -/
def get_correlation_rule_id (correlation_rule_id : ℤ) : String :=
  "CR" ++ format03d correlation_rule_id

/-- Port of rule_violations.get_materiality_rule_for_threshold. -/
def get_materiality_rule_for_threshold (threshold : ℚ) : String :=
  if threshold ≤ 3 then "MT001"
  else if threshold ≤ 5 then "MT002"
  else "MT003"

/-! ## analysis/variance_analyzer.py -/

/-- Port of variance_analyzer.VarianceResult. -/
structure VarianceResult where
  account_code : String
  account_name : String
  category : String
  statement_type : String
  current_value : ℚ
  previous_value : ℚ
  variance_amount : ℚ
  variance_percent : ℚ
  is_significant : Bool
  period_from : String
  period_to : String
deriving Repr, DecidableEq

/-- Port of VarianceAnalyzer._is_variance_significant: sign changes are always
significant; otherwise the category threshold (with the hard-coded in-method
category overrides taking precedence over the configured lookup) is compared
against the absolute variance percent. -/
def is_variance_significant (s : Settings) (current_value previous_value : ℚ)
    (variance_percent : ℚ) (category : String) : Bool :=
  if has_sign_change current_value previous_value then true
  else
    let threshold := get_variance_threshold s category
    let threshold :=
      if category = "opex" then (10 : ℚ)
      else if category = "staff_costs" then 10
      else if category = "other_expenses" then 10
      else if category = "borrowings" then 2
      else if category = "depreciation" then 5
      else threshold
    if |variance_percent| ≥ threshold then true else false

/-! ## analysis/anomaly_detector.py: data model -/

/-- Port of anomaly_detector.AnomalyType. -/
inductive AnomalyType
  | variance_anomaly
  | correlation_violation
  | sign_change
  | recurring_account_spike
  | quarterly_pattern_break
deriving Repr, DecidableEq

/-- Port of anomaly_detector.AnomalySeverity. -/
inductive AnomalySeverity
  | critical
  | high
  | medium
  | low
deriving Repr, DecidableEq

/-- Lowercase value string of an AnomalySeverity member (severity.value). -/
def severity_value : AnomalySeverity → String
  | .critical => "critical"
  | .high => "high"
  | .medium => "medium"
  | .low => "low"

/-- Port of anomaly_detector.Anomaly. -/
structure Anomaly where
  id : String
  type : AnomalyType
  severity : AnomalySeverity
  account_code : String
  account_name : String
  category : String
  description : String
  current_value : ℚ
  previous_value : Option ℚ
  variance_percent : Option ℚ
  rule_violated : Option String
  recommended_action : String
  period : String
  logic_trigger : Option String := none
  rule_violation_id : Option String := none
  rule_violation_name : Option String := none
  rule_violation_description : Option String := none
deriving Repr, DecidableEq

/-- One tier test of the AND-logic severity block in the detector: the Python
conjunct abs_percent >= tbl[tier][variance_threshold] and
abs_amount >= tbl[tier][absolute_threshold], with short-circuit evaluation,
so the absolute_threshold subscript only happens when the percent clears. -/
def tier_clears (tbl : SeverityTable) (tier : String)
    (abs_percent abs_amount : ℚ) : Except String Bool :=
  match dictGet tbl tier with
  | .error e => .error e
  | .ok t =>
    match dictGet t "variance_threshold" with
    | .error e => .error e
    | .ok vt =>
      if abs_percent ≥ vt then
        match dictGet t "absolute_threshold" with
        | .error e => .error e
        | .ok abst => .ok (abs_amount ≥ abst)
      else .ok false

/-- The AND-logic severity classification block that appears verbatim in the
variance, recurring and quarterly passes of AnomalyDetector: critical, then
high, then medium, else low. -/
def classify_severity (tbl : SeverityTable)
    (abs_percent abs_amount : ℚ) : Except String AnomalySeverity :=
  match tier_clears tbl "critical" abs_percent abs_amount with
  | .error e => .error e
  | .ok true => .ok .critical
  | .ok false =>
    match tier_clears tbl "high" abs_percent abs_amount with
    | .error e => .error e
    | .ok true => .ok .high
    | .ok false =>
      match tier_clears tbl "medium" abs_percent abs_amount with
      | .error e => .error e
      | .ok true => .ok .medium
      | .ok false => .ok .low

/-! ## analysis/anomaly_detector.py: variance-threshold pass -/

/-- Port of AnomalyDetector._get_suggested_reason. -/
def get_suggested_reason (s : Settings) (result : VarianceResult) : String :=
  if has_sign_change result.current_value result.previous_value then
    "Account sign change - verify data accuracy and business events"
  else if (get_cyclical_account_codes s).contains result.account_code then
    "Deviation from expected quarterly pattern - check billing cycles"
  else
    "Operational changes or accounting adjustments"

/-- Port of AnomalyDetector._get_logic_trigger.  The severity-tier subscripts
on the severity-threshold table raise on a malformed table, hence the Except
result. -/
def get_logic_trigger (s : Settings) (result : VarianceResult)
    (severity : AnomalySeverity) (abs_percent _abs_amount : ℚ)
    (severity_thresholds : SeverityTable) : Except String String :=
  if has_sign_change result.current_value result.previous_value then
    .ok "Sign change detected"
  else
    let account_threshold := get_variance_threshold s result.category
    if abs_percent ≥ account_threshold then
      let part1 :=
        if result.category = "opex" ∨ result.category = "staff_costs" ∨
            result.category = "other_expenses" then
          "G&A account exceeds 10% threshold (" ++ fmt abs_percent ++ "%)"
        else if result.category = "borrowings" then
          "Borrowings exceeds 2% threshold (" ++ fmt abs_percent ++ "%)"
        else if result.category = "depreciation" then
          "Recurring account exceeds 5% threshold (" ++ fmt abs_percent ++ "%)"
        else
          "Exceeds " ++ fmt account_threshold ++ "% threshold (" ++ fmt abs_percent ++ "%)"
      if severity ≠ .low then
        match dictGet severity_thresholds (severity_value severity) with
        | .error e => .error e
        | .ok sev_config =>
          match dictGet sev_config "variance_threshold" with
          | .error e => .error e
          | .ok vt =>
            match dictGet sev_config "absolute_threshold" with
            | .error e => .error e
            | .ok abst =>
              .ok (part1 ++ " + Meets " ++ severity_value severity ++ " criteria: ≥" ++
                   fmt vt ++ "% and ≥" ++ fmt abst)
      else .ok part1
    else .ok ("Variance threshold exceeded (" ++ fmt abs_percent ++ "%)")

/-- Anomaly built by one loop iteration of
AnomalyDetector._detect_variance_anomalies for a significant result (severity
classification, materiality-rule override, description, logic trigger). -/
def mk_variance_anomaly (s : Settings) (result : VarianceResult) :
    Except String Anomaly :=
  let severity_thresholds := get_severity_thresholds s
  let abs_amount := |result.variance_amount|
  let abs_percent := |result.variance_percent|
  match classify_severity severity_thresholds abs_percent abs_amount with
  | .error e => .error e
  | .ok severity =>
    let rule_id0 := get_variance_rule_for_category result.category
    let rule_violation0 := get_rule_violation rule_id0
    let account_has_specific_materiality :=
      s.materiality_thresholds.any
        (fun lc => lc.2.accounts.contains result.account_code)
    let idrule :=
      if account_has_specific_materiality then
        let materiality_threshold := get_materiality_threshold s result.account_code
        let materiality_rule_id := get_materiality_rule_for_threshold materiality_threshold
        match get_rule_violation materiality_rule_id with
        | some materiality_rule => (materiality_rule_id, some materiality_rule)
        | none => (rule_id0, rule_violation0)
      else (rule_id0, rule_violation0)
    let direction := if result.variance_amount > 0 then "increased" else "decreased"
    let description :=
      "Account " ++ direction ++ " by " ++ fmt abs_percent ++ "% (" ++
      fmt result.variance_amount ++ ")"
    let suggested_reason := get_suggested_reason s result
    match get_logic_trigger s result severity abs_percent abs_amount severity_thresholds with
    | .error e => .error e
    | .ok logic_trigger =>
      .ok { id := "VAR_" ++ result.account_code ++ "_" ++ result.period_to,
            type := .variance_anomaly,
            severity := severity,
            account_code := result.account_code,
            account_name := result.account_name,
            category := result.category,
            description := description,
            current_value := result.current_value,
            previous_value := some result.previous_value,
            variance_percent := some result.variance_percent,
            rule_violated := some (match idrule.2 with
              | some rv => rv.rule_name
              | none => "Variance Threshold"),
            recommended_action := suggested_reason,
            period := result.period_to,
            logic_trigger := some logic_trigger,
            rule_violation_id := some idrule.1,
            rule_violation_name := some (match idrule.2 with
              | some rv => rv.rule_name
              | none => "Variance Threshold"),
            rule_violation_description := some (match idrule.2 with
              | some rv => rv.description
              | none => "Account variance exceeds threshold") }

/-- Port of AnomalyDetector._detect_variance_anomalies: skip non-significant
results, build one anomaly per significant result, propagating the first
raised exception. -/
def detect_variance_anomalies (s : Settings) :
    List VarianceResult → Except String (List Anomaly)
  | [] => .ok []
  | result :: rest =>
    if result.is_significant then
      match mk_variance_anomaly s result with
      | .error e => .error e
      | .ok a =>
        match detect_variance_anomalies s rest with
        | .error e => .error e
        | .ok rest_anomalies => .ok (a :: rest_anomalies)
    else detect_variance_anomalies s rest

/-! ## analysis/correlation_engine.py -/

/-- Port of correlation_engine.RelationshipType. -/
inductive RelationshipType
  | positive
  | negative
  | quarterly_cycle
  | conditional
deriving Repr, DecidableEq

/-- Port of correlation_engine.CorrelationRule. -/
structure CorrelationRule where
  id : ℤ
  name : String
  primary_account_category : String
  correlated_account_category : String
  relationship_type : RelationshipType
  description : String
  enabled : Bool := true
deriving Repr, DecidableEq

/-- Port of correlation_engine.CorrelationResult. -/
structure CorrelationResult where
  rule_id : ℤ
  rule_name : String
  primary_account : String
  correlated_account : String
  primary_variance : ℚ
  correlated_variance : ℚ
  expected_relationship : RelationshipType
  is_violation : Bool
  violation_description : String
  severity : String
deriving Repr, DecidableEq

/-- One row of the combined balance-sheet and income-statement frame: account
code plus period-labelled values (none models NaN, coerced to 0.0 on read). -/
structure Row where
  account_code : String
  vals : List (String × Option ℚ)
deriving Repr, DecidableEq

/-- The combined frame given to _analyze_rule: its rows, and the names of its
numeric (period) columns in frame column order. -/
structure CombinedData where
  rows : List Row
  numeric_cols : List String
deriving Repr, DecidableEq

/-- Value of a row in a period column, with NaN (and absent entries) read as
0.0, as in _calculate_variance. -/
def row_value (row : Row) (period : String) : ℚ :=
  match row.vals.lookup period with
  | some (some v) => v
  | _ => 0

/-- First row of the frame with the given account code, or none
(the empty-selection case of _calculate_variance). -/
def find_row (data : CombinedData) (account_code : String) : Option Row :=
  data.rows.find? (fun row => row.account_code = account_code)

/-- The variance arithmetic of CorrelationEngine._calculate_variance,
computed independently of the variance analyzer. -/
def variance_from_values (current_value previous_value : ℚ) : ℚ :=
  if previous_value ≠ 0 then ((current_value - previous_value) / |previous_value|) * 100
  else if current_value ≠ 0 then 100 else 0

/-- Port of CorrelationEngine._calculate_variance. -/
def calculate_variance (data : CombinedData) (account_code : String)
    (current_period previous_period : String) : Option ℚ :=
  match find_row data account_code with
  | none => none
  | some row =>
    some (variance_from_values (row_value row current_period) (row_value row previous_period))

/-- Port of CorrelationEngine._get_accounts_by_category: the account codes the
mapper assigns to the category, filtered to those present in the frame,
preserving mapper order. -/
def get_accounts_by_category (amcat : String → List String)
    (data : CombinedData) (category : String) : List String :=
  (amcat category).filter (fun code => data.rows.any (fun row => row.account_code = code))

/-- Description and severity of a detected violation (the dict returned by the
per-relationship check helpers). -/
structure ViolationInfo where
  description : String
  severity : String
deriving Repr, DecidableEq

/-- Port of CorrelationEngine._check_positive_relationship (threshold is the
hard-coded 5.0). -/
def check_positive_relationship (_rule : CorrelationRule)
    (primary_var correlated_var : ℚ) : Option ViolationInfo :=
  let threshold : ℚ := 5
  if primary_var > threshold ∧ |correlated_var| < threshold then
    some { description := "Primary account increased " ++ fmt primary_var ++
             "% but correlated account changed only " ++ fmt correlated_var ++ "%",
           severity := if primary_var > 10 then "high" else "medium" }
  else if primary_var < -threshold ∧ |correlated_var| < threshold then
    some { description := "Primary account decreased " ++ fmt |primary_var| ++
             "% but correlated account changed only " ++ fmt correlated_var ++ "%",
           severity := if |primary_var| > 10 then "high" else "medium" }
  else if primary_var > threshold ∧ correlated_var < -threshold then
    some { description := "Primary account increased " ++ fmt primary_var ++
             "% but correlated account decreased " ++ fmt |correlated_var| ++ "%",
           severity := "high" }
  else if primary_var < -threshold ∧ correlated_var > threshold then
    some { description := "Primary account decreased " ++ fmt |primary_var| ++
             "% but correlated account increased " ++ fmt correlated_var ++ "%",
           severity := "high" }
  else none

/-- Port of CorrelationEngine._check_negative_relationship. -/
def check_negative_relationship (_rule : CorrelationRule)
    (primary_var correlated_var : ℚ) : Option ViolationInfo :=
  let threshold : ℚ := 5
  if primary_var > threshold ∧ correlated_var > threshold then
    some { description := "Both accounts increased (" ++ fmt primary_var ++ "%, " ++
             fmt correlated_var ++ "%) but should move oppositely",
           severity := "high" }
  else if primary_var < -threshold ∧ correlated_var < -threshold then
    some { description := "Both accounts decreased (" ++ fmt |primary_var| ++ "%, " ++
             fmt |correlated_var| ++ "%) but should move oppositely",
           severity := "high" }
  else none

/-- Port of CorrelationEngine._check_quarterly_cycle. -/
def check_quarterly_cycle (_rule : CorrelationRule)
    (primary_var _correlated_var : ℚ) : Option ViolationInfo :=
  if |primary_var| > 20 then
    some { description := "Large variance (" ++ fmt primary_var ++
             "%) in cyclical account - verify quarter timing",
           severity := "medium" }
  else none

/-- Port of CorrelationEngine._check_conditional_relationship. -/
def check_conditional_relationship (_rule : CorrelationRule)
    (primary_var correlated_var : ℚ) : Option ViolationInfo :=
  if |primary_var| > 10 ∧ |correlated_var| < 2 then
    some { description := "High volatility in primary (" ++ fmt primary_var ++
             "%) but minimal correlated response (" ++ fmt correlated_var ++ "%)",
           severity := "medium" }
  else none

/-- Port of CorrelationEngine._check_rule_violation. -/
def check_rule_violation (rule : CorrelationRule)
    (primary_variance correlated_variance : ℚ) : Option ViolationInfo :=
  match rule.relationship_type with
  | .positive => check_positive_relationship rule primary_variance correlated_variance
  | .negative => check_negative_relationship rule primary_variance correlated_variance
  | .quarterly_cycle => check_quarterly_cycle rule primary_variance correlated_variance
  | .conditional => check_conditional_relationship rule primary_variance correlated_variance

/-- Inner body of the account-pair loop of _analyze_rule: compute both
variances, skip the pair if either is unavailable, emit a CorrelationResult
exactly when the rule check reports a violation. -/
def pair_result (rule : CorrelationRule) (data : CombinedData)
    (current_period previous_period : String) (primary_account correlated_account : String) :
    Option CorrelationResult :=
  match calculate_variance data primary_account current_period previous_period,
        calculate_variance data correlated_account current_period previous_period with
  | some primary_variance, some correlated_variance =>
    match check_rule_violation rule primary_variance correlated_variance with
    | some violation_result =>
      some { rule_id := rule.id,
             rule_name := rule.name,
             primary_account := primary_account,
             correlated_account := correlated_account,
             primary_variance := primary_variance,
             correlated_variance := correlated_variance,
             expected_relationship := rule.relationship_type,
             is_violation := true,
             violation_description := violation_result.description,
             severity := violation_result.severity }
    | none => none
  | _, _ => none

/-- Port of CorrelationEngine._analyze_rule. -/
def analyze_rule (amcat : String → List String) (rule : CorrelationRule)
    (data : CombinedData) : List CorrelationResult :=
  let primary_accounts := get_accounts_by_category amcat data rule.primary_account_category
  let correlated_accounts := get_accounts_by_category amcat data rule.correlated_account_category
  if primary_accounts.isEmpty ∨ correlated_accounts.isEmpty then []
  else if data.numeric_cols.length < 2 then []
  else
    let current_period := data.numeric_cols.getLastD ""
    let previous_period := data.numeric_cols.dropLast.getLastD ""
    primary_accounts.flatMap (fun primary_account =>
      correlated_accounts.filterMap (fun correlated_account =>
        pair_result rule data current_period previous_period primary_account correlated_account))

/-- Port of CorrelationEngine.analyze: disabled rules are skipped; the rule
list is the engine configuration (the source initializes thirteen rules). -/
def analyze (amcat : String → List String) (rules : List CorrelationRule)
    (data : CombinedData) : List CorrelationResult :=
  rules.flatMap (fun rule => if rule.enabled then analyze_rule amcat rule data else [])

/-! ## analysis/anomaly_detector.py: the remaining passes -/

/-- Port of config.account_mapping.AccountInfo (the fields the detector reads). -/
structure AccountInfo where
  code : String
  name : String
  category : String
  statement_type : String
  is_recurring : Bool := false
deriving Repr, DecidableEq

/-- Severity-string mapping at the top of _detect_correlation_anomalies. -/
def map_correlation_severity (severity : String) : AnomalySeverity :=
  if severity = "high" then .high
  else if severity = "medium" then .medium
  else .low

/-- Anomaly built by one loop iteration of
AnomalyDetector._detect_correlation_anomalies for a violating result.
The account mapper lookup (AccountMapper.get_account_info) is the amap
parameter. -/
def mk_correlation_anomaly (amap : String → Option AccountInfo)
    (result : CorrelationResult) : Anomaly :=
  let severity := map_correlation_severity result.severity
  let account_name := match amap result.primary_account with
    | some info => info.name
    | none => result.primary_account
  let category := match amap result.primary_account with
    | some info => info.category
    | none => "unknown"
  let correlation_rule_id := get_correlation_rule_id result.rule_id
  let rule_violation := get_rule_violation correlation_rule_id
  { id := "CORR_" ++ toString result.rule_id ++ "_" ++ result.primary_account,
    type := .correlation_violation,
    severity := severity,
    account_code := result.primary_account,
    account_name := account_name,
    category := category,
    description := "Rule violation: " ++ result.rule_name ++ ". " ++
      result.violation_description,
    current_value := 0,
    previous_value := none,
    variance_percent := some result.primary_variance,
    rule_violated := some result.rule_name,
    recommended_action := "Operational changes or accounting adjustments",
    period := "Current",
    logic_trigger := some ("Correlation rule violation: " ++ result.rule_name),
    rule_violation_id := some correlation_rule_id,
    rule_violation_name := some (match rule_violation with
      | some rv => rv.rule_name
      | none => result.rule_name),
    rule_violation_description := some (match rule_violation with
      | some rv => rv.description
      | none => result.violation_description) }

/-- Port of AnomalyDetector._detect_correlation_anomalies: results with
is_violation false are skipped. -/
def detect_correlation_anomalies (amap : String → Option AccountInfo) :
    List CorrelationResult → List Anomaly
  | [] => []
  | result :: rest =>
    if result.is_violation then
      mk_correlation_anomaly amap result :: detect_correlation_anomalies amap rest
    else detect_correlation_anomalies amap rest

/-- Anomaly built by one loop iteration of AnomalyDetector._detect_sign_changes
for a result with a sign change. -/
def mk_sign_change_anomaly (result : VarianceResult) : Anomaly :=
  let rule_id :=
    if result.previous_value ≠ 0 ∧ result.current_value = 0 then "SC002"
    else if result.previous_value = 0 ∧ result.current_value ≠ 0 then "SC002"
    else "SC001"
  let rule_violation := get_rule_violation rule_id
  let description :=
    if result.previous_value > 0 ∧ result.current_value < 0 then
      "Account changed from positive (" ++ fmt result.previous_value ++
      ") to negative (" ++ fmt result.current_value ++ ")"
    else if result.previous_value < 0 ∧ result.current_value > 0 then
      "Account changed from negative (" ++ fmt result.previous_value ++
      ") to positive (" ++ fmt result.current_value ++ ")"
    else if result.previous_value ≠ 0 ∧ result.current_value = 0 then
      "Account changed from " ++ fmt result.previous_value ++ " to zero"
    else
      "Account changed from zero to " ++ fmt result.current_value
  { id := "SIGN_" ++ result.account_code ++ "_" ++ result.period_to,
    type := .sign_change,
    severity := .high,
    account_code := result.account_code,
    account_name := result.account_name,
    category := result.category,
    description := description,
    current_value := result.current_value,
    previous_value := some result.previous_value,
    variance_percent := some result.variance_percent,
    rule_violated := some (match rule_violation with
      | some rv => rv.rule_name
      | none => "Sign Change Detection"),
    recommended_action := "Account sign change - verify data accuracy and business events",
    period := result.period_to,
    logic_trigger := some "Sign change detected",
    rule_violation_id := some rule_id,
    rule_violation_name := some (match rule_violation with
      | some rv => rv.rule_name
      | none => "Sign Change Detection"),
    rule_violation_description := some (match rule_violation with
      | some rv => rv.description
      | none => "Account sign changed unexpectedly") }

/-- Port of AnomalyDetector._detect_sign_changes. -/
def detect_sign_changes : List VarianceResult → List Anomaly
  | [] => []
  | result :: rest =>
    if has_sign_change result.current_value result.previous_value then
      mk_sign_change_anomaly result :: detect_sign_changes rest
    else detect_sign_changes rest

/-- Anomaly built by one loop iteration of
AnomalyDetector._detect_recurring_account_anomalies once the recurring-set and
stability-threshold guards passed. -/
def mk_recurring_anomaly (s : Settings) (recurring_threshold : ℚ)
    (result : VarianceResult) : Except String Anomaly :=
  let severity_thresholds := get_severity_thresholds s
  let abs_amount := |result.variance_amount|
  let abs_percent := |result.variance_percent|
  match classify_severity severity_thresholds abs_percent abs_amount with
  | .error e => .error e
  | .ok severity =>
    let rule_id := "RA001"
    let rule_violation := get_rule_violation rule_id
    .ok { id := "RECUR_" ++ result.account_code ++ "_" ++ result.period_to,
          type := .recurring_account_spike,
          severity := severity,
          account_code := result.account_code,
          account_name := result.account_name,
          category := result.category,
          description := "Recurring account showed " ++ fmt abs_percent ++
            "% variance (expected to be stable)",
          current_value := result.current_value,
          previous_value := some result.previous_value,
          variance_percent := some result.variance_percent,
          rule_violated := some (match rule_violation with
            | some rv => rv.rule_name
            | none => "Recurring Account Stability"),
          recommended_action := "Operational changes or accounting adjustments",
          period := result.period_to,
          logic_trigger := some ("Recurring account exceeds " ++ fmt recurring_threshold ++
            "% stability threshold (" ++ fmt abs_percent ++ "%)"),
          rule_violation_id := some rule_id,
          rule_violation_name := some (match rule_violation with
            | some rv => rv.rule_name
            | none => "Recurring Account Stability"),
          rule_violation_description := some (match rule_violation with
            | some rv => rv.description
            | none => "Recurring account exceeded stability threshold") }

/-- Port of AnomalyDetector._detect_recurring_account_anomalies. -/
def detect_recurring_account_anomalies (s : Settings) :
    List VarianceResult → Except String (List Anomaly)
  | [] => .ok []
  | result :: rest =>
    if (get_recurring_account_codes s).contains result.account_code then
      let recurring_threshold := get_variance_threshold s "recurring"
      if |result.variance_percent| ≥ recurring_threshold then
        match mk_recurring_anomaly s recurring_threshold result with
        | .error e => .error e
        | .ok a =>
          match detect_recurring_account_anomalies s rest with
          | .error e => .error e
          | .ok rest_anomalies => .ok (a :: rest_anomalies)
      else detect_recurring_account_anomalies s rest
    else detect_recurring_account_anomalies s rest

/-- Anomaly built by one loop iteration of
AnomalyDetector._detect_quarterly_pattern_breaks once the cyclical-set and
pattern-threshold guards passed. -/
def mk_quarterly_anomaly (s : Settings) (pattern_threshold : ℚ)
    (result : VarianceResult) : Except String Anomaly :=
  let severity_thresholds := get_severity_thresholds s
  let abs_amount := |result.variance_amount|
  let abs_percent := |result.variance_percent|
  match classify_severity severity_thresholds abs_percent abs_amount with
  | .error e => .error e
  | .ok severity =>
    let rule_id := if result.category = "trade_receivables" then "QP001" else "QP002"
    let rule_violation := get_rule_violation rule_id
    .ok { id := "QUART_" ++ result.account_code ++ "_" ++ result.period_to,
          type := .quarterly_pattern_break,
          severity := severity,
          account_code := result.account_code,
          account_name := result.account_name,
          category := result.category,
          description := "Quarterly account showed unusual variance of " ++
            fmt abs_percent ++ "%",
          current_value := result.current_value,
          previous_value := some result.previous_value,
          variance_percent := some result.variance_percent,
          rule_violated := some (match rule_violation with
            | some rv => rv.rule_name
            | none => "Quarterly Pattern Check"),
          recommended_action := "Deviation from expected quarterly pattern - check billing cycles",
          period := result.period_to,
          logic_trigger := some ("Cyclical account exceeds quarterly pattern threshold (" ++
            fmt abs_percent ++ "% > " ++ fmt pattern_threshold ++ "%)"),
          rule_violation_id := some rule_id,
          rule_violation_name := some (match rule_violation with
            | some rv => rv.rule_name
            | none => "Quarterly Pattern Check"),
          rule_violation_description := some (match rule_violation with
            | some rv => rv.description
            | none => "Account deviated from expected quarterly pattern") }

/-- Port of AnomalyDetector._detect_quarterly_pattern_breaks (the
financial_data argument of the source is unused there and omitted). -/
def detect_quarterly_pattern_breaks (s : Settings) :
    List VarianceResult → Except String (List Anomaly)
  | [] => .ok []
  | result :: rest =>
    if (get_cyclical_account_codes s).contains result.account_code then
      let pattern_threshold :=
        dictGetD (dictGetD s.quarterly_patterns result.category []) "end_quarter_peak" 30
      if |result.variance_percent| > pattern_threshold then
        match mk_quarterly_anomaly s pattern_threshold result with
        | .error e => .error e
        | .ok a =>
          match detect_quarterly_pattern_breaks s rest with
          | .error e => .error e
          | .ok rest_anomalies => .ok (a :: rest_anomalies)
      else detect_quarterly_pattern_breaks s rest
    else detect_quarterly_pattern_breaks s rest

/-! ## analysis/anomaly_detector.py: prioritization and detect -/

/-- The severity_order dict of _prioritize_anomalies. -/
def severity_order : AnomalySeverity → ℕ
  | .critical => 4
  | .high => 3
  | .medium => 2
  | .low => 1

/-- Sort key of _prioritize_anomalies: severity rank, then the absolute
variance percent with 0 substituted when variance_percent is falsy in Python
(None or zero). -/
def priority_key (a : Anomaly) : ℕ × ℚ :=
  (severity_order a.severity,
   match a.variance_percent with
   | some v => if v ≠ 0 then |v| else 0
   | none => 0)

/-- Boolean lexicographic order on priority keys (Python tuple comparison). -/
def key_le (x y : ℕ × ℚ) : Bool :=
  decide (x.1 < y.1) || (decide (x.1 = y.1) && decide (x.2 ≤ y.2))

/-- Port of AnomalyDetector._prioritize_anomalies: Python sorted with
reverse=True is a stable sort placing larger keys first; modelled by a stable
merge sort under the flipped key order. -/
def prioritize_anomalies (anomalies : List Anomaly) : List Anomaly :=
  anomalies.mergeSort (fun a b => key_le (priority_key b) (priority_key a))

/-- Port of AnomalyDetector.detect: the five passes in source order, then
prioritization.  A raise in any Except-valued pass aborts the run. -/
def detect (s : Settings) (amap : String → Option AccountInfo)
    (variance_results : List VarianceResult)
    (correlation_results : List CorrelationResult) : Except String (List Anomaly) :=
  match detect_variance_anomalies s variance_results with
  | .error e => .error e
  | .ok variance_anomalies =>
    let correlation_anomalies := detect_correlation_anomalies amap correlation_results
    let sign_change_anomalies := detect_sign_changes variance_results
    match detect_recurring_account_anomalies s variance_results with
    | .error e => .error e
    | .ok recurring_anomalies =>
      match detect_quarterly_pattern_breaks s variance_results with
      | .error e => .error e
      | .ok quarterly_anomalies =>
        .ok (prioritize_anomalies
          (variance_anomalies ++ correlation_anomalies ++ sign_change_anomalies ++
           recurring_anomalies ++ quarterly_anomalies))

/-! ## Shared helpers for the verification -/

/-- Decidable equality of Except values, for concrete evaluation. -/
instance instDecEqExcept {ε α : Type} [DecidableEq ε] [DecidableEq α] :
    DecidableEq (Except ε α)
  | .error e, .error f => decidable_of_iff (e = f) (by simp)
  | .error _, .ok _ => isFalse (fun h => Except.noConfusion h)
  | .ok _, .error _ => isFalse (fun h => Except.noConfusion h)
  | .ok a, .ok b => decidable_of_iff (a = b) (by simp)

/-- Configuration with nothing configured: every lookup falls back to the
documented defaults. -/
def settings0 : Settings :=
  { account_tolerances := [],
    recurring_account_thresholds := [],
    variance_threshold := none,
    severity_levels := none,
    quarterly_patterns := [],
    materiality_thresholds := [],
    recurring_account_codes := [],
    cyclical_account_codes := [] }

/-- Account mapper with no account metadata configured. -/
def amap0 : String → Option AccountInfo := fun _ => none

/-- Semantic characterization of has_sign_change. -/
theorem has_sign_change_iff (current previous : ℚ) :
    has_sign_change current previous = true ↔
      (previous = 0 ∧ current ≠ 0) ∨ (previous ≠ 0 ∧ current = 0)
      ∨ (previous > 0 ∧ current < 0) ∨ (previous < 0 ∧ current > 0) := by
  unfold has_sign_change
  split_ifs with h1 h2 h3 h4 <;> simp_all

/-! ## Claim C2 -/

/-- C2: for every pair of values, the variance percent computed by the
variance analyzer helper calculate_variance_percentage and by the correlation
engine per-account computation (variance_from_values, the arithmetic of
_calculate_variance) agree, and both equal
((current - previous) / |previous|) * 100 when previous is nonzero, 100.0
when previous = 0 and current is nonzero, and 0.0 when both are zero. -/
theorem C2_variance_percent_convention (current previous : ℚ) :
    calculate_variance_percentage current previous = variance_from_values current previous
    ∧ (previous ≠ 0 →
        calculate_variance_percentage current previous = ((current - previous) / |previous|) * 100)
    ∧ (previous = 0 → current ≠ 0 → calculate_variance_percentage current previous = 100)
    ∧ (previous = 0 → current = 0 → calculate_variance_percentage current previous = 0) := by
  unfold calculate_variance_percentage variance_from_values
  by_cases hp : previous = 0 <;> by_cases hc : current = 0 <;> simp [hp, hc]

/-- Witness for C2 at concrete inputs. -/
theorem C2_variance_percent_convention_witness :
    calculate_variance_percentage 3 0 = 100 ∧ calculate_variance_percentage 0 0 = 0
    ∧ calculate_variance_percentage 150 100 = 50 := by
  refine ⟨(C2_variance_percent_convention 3 0).2.2.1 rfl (by norm_num),
          (C2_variance_percent_convention 0 0).2.2.2 rfl rfl, ?_⟩
  have h := (C2_variance_percent_convention 150 100).2.1 (by norm_num)
  rw [h]; norm_num

/-! ## Claim C3 -/

/-- C3: a sign change between the previous and current value (zero to
nonzero, nonzero to zero, or strictly opposite signs) makes the variance
analyzer significance flag true for every configuration and category. -/
theorem C3_sign_change_always_significant (s : Settings)
    (current_value previous_value variance_percent : ℚ) (category : String)
    (h : (previous_value = 0 ∧ current_value ≠ 0) ∨ (previous_value ≠ 0 ∧ current_value = 0)
       ∨ (previous_value > 0 ∧ current_value < 0) ∨ (previous_value < 0 ∧ current_value > 0)) :
    is_variance_significant s current_value previous_value variance_percent category = true := by
  have hs : has_sign_change current_value previous_value = true :=
    (has_sign_change_iff current_value previous_value).mpr h
  unfold is_variance_significant
  simp [hs]

/-- Witness for C3: a strict sign flip is significant with nothing
configured. -/
theorem C3_sign_change_always_significant_witness :
    is_variance_significant settings0 5 (-2) 0 "revenue" = true :=
  C3_sign_change_always_significant settings0 5 (-2) 0 "revenue"
    (Or.inr (Or.inr (Or.inr ⟨by norm_num, by norm_num⟩)))

/-! ## Claim C1 -/

/-- Evaluation of the critical tier test on the default table. -/
theorem tier_clears_default_critical (abs_percent abs_amount : ℚ) :
    tier_clears default_severity_levels "critical" abs_percent abs_amount =
      .ok (if abs_percent ≥ 20 then decide (abs_amount ≥ 1000000) else false) := by
  unfold tier_clears dictGet default_severity_levels
  by_cases h : abs_percent ≥ (20 : ℚ) <;> simp [h, List.lookup]

/-- Evaluation of the high tier test on the default table. -/
theorem tier_clears_default_high (abs_percent abs_amount : ℚ) :
    tier_clears default_severity_levels "high" abs_percent abs_amount =
      .ok (if abs_percent ≥ 10 then decide (abs_amount ≥ 500000) else false) := by
  unfold tier_clears dictGet default_severity_levels
  by_cases h : abs_percent ≥ (10 : ℚ) <;> simp [h, List.lookup]

/-- Evaluation of the medium tier test on the default table. -/
theorem tier_clears_default_medium (abs_percent abs_amount : ℚ) :
    tier_clears default_severity_levels "medium" abs_percent abs_amount =
      .ok (if abs_percent ≥ 5 then decide (abs_amount ≥ 100000) else false) := by
  unfold tier_clears dictGet default_severity_levels
  by_cases h : abs_percent ≥ (5 : ℚ) <;> simp [h, List.lookup]

/-- The AND-logic tier chain evaluated on the default table. -/
theorem classify_severity_default (abs_percent abs_amount : ℚ) :
    classify_severity default_severity_levels abs_percent abs_amount =
      .ok (if abs_percent ≥ 20 ∧ abs_amount ≥ 1000000 then .critical
           else if abs_percent ≥ 10 ∧ abs_amount ≥ 500000 then .high
           else if abs_percent ≥ 5 ∧ abs_amount ≥ 100000 then .medium
           else .low) := by
  unfold classify_severity
  rw [tier_clears_default_critical, tier_clears_default_high, tier_clears_default_medium]
  by_cases h1 : abs_percent ≥ (20 : ℚ) <;> by_cases h2 : abs_amount ≥ (1000000 : ℚ) <;>
    by_cases h3 : abs_percent ≥ (10 : ℚ) <;> by_cases h4 : abs_amount ≥ (500000 : ℚ) <;>
    by_cases h5 : abs_percent ≥ (5 : ℚ) <;> by_cases h6 : abs_amount ≥ (100000 : ℚ) <;>
    simp [h1, h2, h3, h4, h5, h6]

/-- The logic-trigger builder never raises on the default severity table. -/
theorem get_logic_trigger_default_ok (s : Settings) (result : VarianceResult)
    (severity : AnomalySeverity) (abs_percent abs_amount : ℚ) :
    ∃ t, get_logic_trigger s result severity abs_percent abs_amount
           default_severity_levels = .ok t := by
  unfold get_logic_trigger
  cases severity <;> dsimp only <;> split_ifs <;>
    first
    | exact ⟨_, rfl⟩
    | simp_all

/-- C1: under the default severity table (critical 20%/1,000,000, high
10%/500,000, medium 5%/100,000) the variance-threshold pass assigns severity
to a significant VarianceResult by testing critical, then high, then medium,
each requiring BOTH the absolute variance percent and the absolute variance
amount to clear the tier, falling through to low; in particular 25% on an
amount of 50,000 classifies low. -/
theorem C1_and_logic_severity :
    (∀ abs_percent abs_amount : ℚ,
        classify_severity default_severity_levels abs_percent abs_amount =
          .ok (if abs_percent ≥ 20 ∧ abs_amount ≥ 1000000 then .critical
               else if abs_percent ≥ 10 ∧ abs_amount ≥ 500000 then .high
               else if abs_percent ≥ 5 ∧ abs_amount ≥ 100000 then .medium
               else .low))
    ∧ (∀ (s : Settings) (result : VarianceResult),
        get_severity_thresholds s = default_severity_levels →
        result.is_significant = true →
        (mk_variance_anomaly s result).map Anomaly.severity =
          .ok (if |result.variance_percent| ≥ 20 ∧ |result.variance_amount| ≥ 1000000 then
                 .critical
               else if |result.variance_percent| ≥ 10 ∧ |result.variance_amount| ≥ 500000 then
                 .high
               else if |result.variance_percent| ≥ 5 ∧ |result.variance_amount| ≥ 100000 then
                 .medium
               else .low))
    ∧ classify_severity default_severity_levels 25 50000 = .ok .low := by
  refine ⟨classify_severity_default, ?_, ?_⟩
  · intro s result hs _
    unfold mk_variance_anomaly
    rw [hs]
    dsimp only
    rw [classify_severity_default]
    dsimp only
    obtain ⟨t, ht⟩ := get_logic_trigger_default_ok s result _
      |result.variance_percent| |result.variance_amount|
    rw [ht]
    rfl
  · rw [classify_severity_default]
    norm_num

/-- A significant result with variance percent 25 and variance amount 50,000
(previous 200,000, current 250,000). -/
def r25 : VarianceResult :=
  { account_code := "217000001",
    account_name := "Investment property",
    category := "investment_properties",
    statement_type := "BS",
    current_value := 250000,
    previous_value := 200000,
    variance_amount := 50000,
    variance_percent := 25,
    is_significant := true,
    period_from := "P1",
    period_to := "P2" }

/-- Witness for C1: the variance pass classifies the 25%/50,000 result low. -/
theorem C1_and_logic_severity_witness :
    (mk_variance_anomaly settings0 r25).map Anomaly.severity = .ok .low := by
  have h := C1_and_logic_severity.2.1 settings0 r25 rfl rfl
  norm_num [r25] at h
  exact h

/-! ## Claim C4 -/

/-- Correlation rule 1 of the engine (positive relationship). -/
def rule1 : CorrelationRule :=
  { id := 1,
    name := "Investment Properties vs Depreciation",
    primary_account_category := "investment_properties",
    correlated_account_category := "depreciation",
    relationship_type := .positive,
    description := "As Investment Properties increase, Depreciation should increase proportionally" }

/-- C4: for a positive relationship with the (hard-coded) threshold 5, a
violation is reported exactly when the primary variance moves beyond the
threshold in either direction while the correlated magnitude stays below it,
or when primary and correlated each move beyond the threshold in opposite
directions; severity is high exactly when the absolute primary variance
exceeds 10 or in an opposite-direction case, else medium; in particular
primary +12 with correlated +1, and primary +12 with correlated -8, are both
violations of severity high. -/
theorem C4_positive_relationship :
    (∀ (rule : CorrelationRule) (pv cv : ℚ),
        (check_positive_relationship rule pv cv).isSome = true ↔
          (((pv > 5 ∨ pv < -5) ∧ |cv| < 5) ∨ (pv > 5 ∧ cv < -5) ∨ (pv < -5 ∧ cv > 5)))
    ∧ (∀ (rule : CorrelationRule) (pv cv : ℚ),
        (((pv > 5 ∨ pv < -5) ∧ |cv| < 5) ∨ (pv > 5 ∧ cv < -5) ∨ (pv < -5 ∧ cv > 5)) →
        (check_positive_relationship rule pv cv).map ViolationInfo.severity =
          some (if |pv| > 10 ∨ (pv > 5 ∧ cv < -5) ∨ (pv < -5 ∧ cv > 5)
                then "high" else "medium")) := by
  constructor
  · intro rule pv cv
    unfold check_positive_relationship
    dsimp only
    by_cases h1 : pv > 5 ∧ |cv| < 5
    · rw [if_pos h1]
      simpa using Or.inl ⟨Or.inl h1.1, h1.2⟩
    · rw [if_neg h1]
      by_cases h2 : pv < -5 ∧ |cv| < 5
      · rw [if_pos h2]
        simpa using Or.inl ⟨Or.inr h2.1, h2.2⟩
      · rw [if_neg h2]
        by_cases h3 : pv > 5 ∧ cv < -5
        · rw [if_pos h3]
          simpa using Or.inr (Or.inl h3)
        · rw [if_neg h3]
          by_cases h4 : pv < -5 ∧ cv > 5
          · rw [if_pos h4]
            simpa using Or.inr (Or.inr h4)
          · rw [if_neg h4]
            simp only [Option.isSome_none, Bool.false_eq_true, false_iff]
            tauto
  · intro rule pv cv hcond
    unfold check_positive_relationship
    dsimp only
    by_cases h1 : pv > 5 ∧ |cv| < 5
    · obtain ⟨hp, hc⟩ := h1
      rw [if_pos ⟨hp, hc⟩]
      have habs : |pv| = pv := abs_of_pos (by linarith)
      have hc1 : -5 < cv := (abs_lt.mp hc).1
      have hn1 : ¬(cv < -5) := by linarith
      have hn2 : ¬(pv < -5) := by linarith
      simp [habs, hn1, hn2]
    · rw [if_neg h1]
      by_cases h2 : pv < -5 ∧ |cv| < 5
      · obtain ⟨hp, hc⟩ := h2
        rw [if_pos ⟨hp, hc⟩]
        have hc2 : cv < 5 := (abs_lt.mp hc).2
        have hn1 : ¬(pv > 5) := by linarith
        have hn2 : ¬(cv > 5) := by linarith
        simp [hn1, hn2]
      · rw [if_neg h2]
        by_cases h3 : pv > 5 ∧ cv < -5
        · obtain ⟨hp, hc⟩ := h3
          rw [if_pos ⟨hp, hc⟩]
          have : |pv| > 10 ∨ (pv > 5 ∧ cv < -5) ∨ (pv < -5 ∧ cv > 5) := Or.inr (Or.inl ⟨hp, hc⟩)
          simp [this]
        · rw [if_neg h3]
          by_cases h4 : pv < -5 ∧ cv > 5
          · obtain ⟨hp, hc⟩ := h4
            rw [if_pos ⟨hp, hc⟩]
            have : |pv| > 10 ∨ (pv > 5 ∧ cv < -5) ∨ (pv < -5 ∧ cv > 5) := Or.inr (Or.inr ⟨hp, hc⟩)
            simp [this]
          · exfalso
            tauto

/-- Witness for C4: the two concrete scenarios of the claim. -/
theorem C4_positive_relationship_witness :
    (check_positive_relationship rule1 12 1).map ViolationInfo.severity = some "high"
    ∧ (check_positive_relationship rule1 12 (-8)).map ViolationInfo.severity = some "high" := by
  constructor
  · have h := C4_positive_relationship.2 rule1 12 1 (by norm_num)
    norm_num at h
    obtain ⟨a, ha, hs⟩ := h
    simp [ha, hs]
  · have h := C4_positive_relationship.2 rule1 12 (-8) (by norm_num)
    norm_num at h
    obtain ⟨a, ha, hs⟩ := h
    simp [ha, hs]

/-! ## Claim C5 -/

/-- Account-category mapper exposing rule 1 categories. -/
def amcat1 : String → List String := fun category =>
  if category = "investment_properties" then ["217000001"]
  else if category = "depreciation" then ["632100001"]
  else []

/-- Snapshot where both rule-1 categories have a present account, two numeric
periods exist, and neither account moved (no violation). -/
def data1 : CombinedData :=
  { rows := [{ account_code := "217000001", vals := [("P1", some 0), ("P2", some 0)] },
             { account_code := "632100001", vals := [("P1", some 0), ("P2", some 0)] }],
    numeric_cols := ["P1", "P2"] }

/-- Snapshot where the primary account jumps (variance 100) while the
correlated account stays flat, violating the positive rule. -/
def data2 : CombinedData :=
  { rows := [{ account_code := "217000001", vals := [("P1", some 0), ("P2", some 5)] },
             { account_code := "632100001", vals := [("P1", some 0), ("P2", some 0)] }],
    numeric_cols := ["P1", "P2"] }

/-- Counterexample to C5: under rule 1, both categories have one matching
account present in data1 and two numeric periods exist, yet analyze emits no
CorrelationResult for the pair, because the pair does not violate the rule. -/
theorem C5_counterexample :
    get_accounts_by_category amcat1 data1 rule1.primary_account_category = ["217000001"]
    ∧ get_accounts_by_category amcat1 data1 rule1.correlated_account_category = ["632100001"]
    ∧ rule1.enabled = true
    ∧ data1.numeric_cols.length = 2
    ∧ analyze amcat1 [rule1] data1 = [] := by
  refine ⟨by decide, by decide, by decide, by decide, by decide⟩

/-- Any result emitted by the account-pair loop body is a violation. -/
theorem pair_result_is_violation (rule : CorrelationRule) (data : CombinedData)
    (cur prev pa ca : String) (res : CorrelationResult)
    (h : pair_result rule data cur prev pa ca = some res) : res.is_violation = true := by
  unfold pair_result at h
  repeat' split at h
  all_goals simp_all
  all_goals rw [← h]

/-- C5 amended: for a pair of present accounts under at least two numeric
columns, _analyze_rule emits one CorrelationResult exactly when the pair
violates the rule, and nothing for a non-violating pair; every emitted result
is a violation. -/
theorem C5_results_exactly_on_violation :
    (∀ (amcat : String → List String) (rule : CorrelationRule) (data : CombinedData)
        (res : CorrelationResult), res ∈ analyze_rule amcat rule data →
        res.is_violation = true)
    ∧ (∀ (rule : CorrelationRule) (data : CombinedData) (cur prev pa ca : String),
        (pair_result rule data cur prev pa ca).isSome = true ↔
          ∃ pv cv, calculate_variance data pa cur prev = some pv
            ∧ calculate_variance data ca cur prev = some cv
            ∧ (check_rule_violation rule pv cv).isSome = true)
    ∧ (∀ (amcat : String → List String) (rule : CorrelationRule) (data : CombinedData),
        (get_accounts_by_category amcat data rule.primary_account_category).isEmpty = false →
        (get_accounts_by_category amcat data rule.correlated_account_category).isEmpty = false →
        ¬(data.numeric_cols.length < 2) →
        analyze_rule amcat rule data =
          (get_accounts_by_category amcat data rule.primary_account_category).flatMap
            (fun pa =>
              (get_accounts_by_category amcat data rule.correlated_account_category).filterMap
                (fun ca => pair_result rule data (data.numeric_cols.getLastD "")
                             (data.numeric_cols.dropLast.getLastD "") pa ca))) := by
  refine ⟨?_, ?_, ?_⟩
  · intro amcat rule data res h
    unfold analyze_rule at h
    dsimp only at h
    split at h
    · simp at h
    · split at h
      · simp at h
      · rw [List.mem_flatMap] at h
        obtain ⟨pa, _, hmem⟩ := h
        rw [List.mem_filterMap] at hmem
        obtain ⟨ca, _, hpair⟩ := hmem
        exact pair_result_is_violation _ _ _ _ _ _ _ hpair
  · intro rule data cur prev pa ca
    unfold pair_result
    constructor
    · intro h
      split at h
      · rename_i pv cv hpv hcv
        refine ⟨pv, cv, hpv, hcv, ?_⟩
        split at h
        · simp_all
        · simp at h
      · simp at h
    · rintro ⟨pv, cv, hpv, hcv, hviol⟩
      rw [hpv, hcv]
      dsimp only
      obtain ⟨v, hv⟩ := Option.isSome_iff_exists.mp hviol
      rw [hv]
      rfl
  · intro amcat rule data h1 h2 h3
    unfold analyze_rule
    rw [if_neg (by simp [h1, h2]), if_neg h3]

/-- Witness for C5 amended: on data2 the rule-1 pair violates and a result is
emitted; the guarded pass reduces to the pair loop. -/
theorem C5_results_exactly_on_violation_witness :
    (pair_result rule1 data2 "P2" "P1" "217000001" "632100001").isSome = true
    ∧ analyze_rule amcat1 rule1 data2 =
        (get_accounts_by_category amcat1 data2 rule1.primary_account_category).flatMap
          (fun pa =>
            (get_accounts_by_category amcat1 data2 rule1.correlated_account_category).filterMap
              (fun ca => pair_result rule1 data2 (data2.numeric_cols.getLastD "")
                           (data2.numeric_cols.dropLast.getLastD "") pa ca)) := by
  constructor
  · exact (C5_results_exactly_on_violation.2.1 rule1 data2 "P2" "P1"
      "217000001" "632100001").mpr ⟨100, 0, by decide, by decide, by decide⟩
  · exact C5_results_exactly_on_violation.2.2 amcat1 rule1 data2
      (by decide) (by decide) (by decide)

/-! ## Claim C9 -/

/-- Any result emitted by _analyze_rule is a violation (shared helper). -/
theorem analyze_rule_mem_is_violation (amcat : String → List String)
    (rule : CorrelationRule) (data : CombinedData) (res : CorrelationResult)
    (h : res ∈ analyze_rule amcat rule data) : res.is_violation = true := by
  unfold analyze_rule at h
  dsimp only at h
  split at h
  · simp at h
  · split at h
    · simp at h
    · rw [List.mem_flatMap] at h
      obtain ⟨pa, _, hmem⟩ := h
      rw [List.mem_filterMap] at hmem
      obtain ⟨ca, _, hpair⟩ := hmem
      exact pair_result_is_violation _ _ _ _ _ _ _ hpair

/-- C9: every CorrelationResult returned by CorrelationEngine.analyze has
is_violation true, so the is_violation filter at the start of the detector
correlation pass discards nothing: on such input the pass maps every result
to an anomaly. -/
theorem C9_analyze_only_violations :
    (∀ (amcat : String → List String) (rules : List CorrelationRule) (data : CombinedData)
        (res : CorrelationResult), res ∈ analyze amcat rules data →
        res.is_violation = true)
    ∧ (∀ (amap : String → Option AccountInfo) (results : List CorrelationResult),
        (∀ res ∈ results, res.is_violation = true) →
        detect_correlation_anomalies amap results =
          results.map (mk_correlation_anomaly amap)) := by
  constructor
  · intro amcat rules data res h
    unfold analyze at h
    rw [List.mem_flatMap] at h
    obtain ⟨rule, _, hmem⟩ := h
    by_cases he : rule.enabled = true
    · rw [if_pos he] at hmem
      exact analyze_rule_mem_is_violation amcat rule data res hmem
    · rw [if_neg he] at hmem
      simp at hmem
  · intro amap results hall
    induction results with
    | nil => rfl
    | cons res rest ih =>
      unfold detect_correlation_anomalies
      rw [if_pos (hall res (List.mem_cons_self res rest))]
      rw [ih (fun r hr => hall r (List.mem_cons_of_mem res hr))]
      rfl

/-- A violating correlation result for witnesses (rule 1, primary jumped 100,
correlated flat). -/
def cres1 : CorrelationResult :=
  { rule_id := 1,
    rule_name := "Investment Properties vs Depreciation",
    primary_account := "217000001",
    correlated_account := "632100001",
    primary_variance := 100,
    correlated_variance := 0,
    expected_relationship := .positive,
    is_violation := true,
    violation_description := "Primary account increased 100% but correlated account changed only 0%",
    severity := "high" }

/-- Witness for C9: the pass maps a concrete all-violations list one to one. -/
theorem C9_analyze_only_violations_witness :
    detect_correlation_anomalies amap0 [cres1] =
      [cres1].map (mk_correlation_anomaly amap0) := by
  refine C9_analyze_only_violations.2 amap0 [cres1] ?_
  intro res hres
  rw [List.mem_singleton] at hres
  rw [hres]
  rfl

/-! ## Claim C10 -/

/-- C10: every anomaly emitted by the correlation pass carries the
placeholder values current_value 0.0, previous_value None and period
"Current", and its variance_percent is the primary variance of a source
result. -/
theorem C10_correlation_pass_placeholders
    (amap : String → Option AccountInfo) (results : List CorrelationResult)
    (a : Anomaly) (h : a ∈ detect_correlation_anomalies amap results) :
    a.current_value = 0 ∧ a.previous_value = none ∧ a.period = "Current"
    ∧ ∃ res ∈ results, a.variance_percent = some res.primary_variance := by
  induction results with
  | nil => simp [detect_correlation_anomalies] at h
  | cons res rest ih =>
    unfold detect_correlation_anomalies at h
    split at h
    · rcases List.mem_cons.mp h with heq | hmem
      · subst heq
        exact ⟨rfl, rfl, rfl, res, List.mem_cons_self res rest, rfl⟩
      · obtain ⟨h1, h2, h3, r, hr, h4⟩ := ih hmem
        exact ⟨h1, h2, h3, r, List.mem_cons_of_mem res hr, h4⟩
    · obtain ⟨h1, h2, h3, r, hr, h4⟩ := ih h
      exact ⟨h1, h2, h3, r, List.mem_cons_of_mem res hr, h4⟩

/-- Witness for C10 at the concrete violating result. -/
theorem C10_correlation_pass_placeholders_witness :
    (mk_correlation_anomaly amap0 cres1).current_value = 0
    ∧ (mk_correlation_anomaly amap0 cres1).previous_value = none
    ∧ (mk_correlation_anomaly amap0 cres1).period = "Current" := by
  obtain ⟨h1, h2, h3, _⟩ := C10_correlation_pass_placeholders amap0 [cres1]
    (mk_correlation_anomaly amap0 cres1) (by simp [detect_correlation_anomalies, cres1])
  exact ⟨h1, h2, h3⟩

/-! ## Claim C6 -/

/-- The same violation under correlation rule 2. -/
def cres2 : CorrelationResult :=
  { cres1 with rule_id := 2, rule_name := "Loan Balance vs Interest Expenses" }

/-- Counterexample to C6: two correlation anomalies from one run that agree on
account code, period and detection type but have different ids, because the
correlation pass derives ids from the rule id and account, not from the
period. -/
theorem C6_counterexample :
    detect_correlation_anomalies amap0 [cres1, cres2] =
      [mk_correlation_anomaly amap0 cres1, mk_correlation_anomaly amap0 cres2]
    ∧ (mk_correlation_anomaly amap0 cres1).account_code =
        (mk_correlation_anomaly amap0 cres2).account_code
    ∧ (mk_correlation_anomaly amap0 cres1).period = (mk_correlation_anomaly amap0 cres2).period
    ∧ (mk_correlation_anomaly amap0 cres1).type = (mk_correlation_anomaly amap0 cres2).type
    ∧ (mk_correlation_anomaly amap0 cres1).id ≠ (mk_correlation_anomaly amap0 cres2).id := by
  exact ⟨rfl, rfl, rfl, rfl, by decide⟩

/-- Identifier and locating fields of a variance-pass anomaly. -/
theorem mk_variance_anomaly_fields (s : Settings) (r : VarianceResult) (a : Anomaly)
    (h : mk_variance_anomaly s r = .ok a) :
    a.id = "VAR_" ++ r.account_code ++ "_" ++ r.period_to
    ∧ a.account_code = r.account_code ∧ a.period = r.period_to := by
  unfold mk_variance_anomaly at h
  dsimp only at h
  split at h
  · simp at h
  · split at h
    · simp at h
    · injection h with h
      subst h
      exact ⟨rfl, rfl, rfl⟩

/-- Identifier and locating fields of a recurring-pass anomaly. -/
theorem mk_recurring_anomaly_fields (s : Settings) (t : ℚ) (r : VarianceResult) (a : Anomaly)
    (h : mk_recurring_anomaly s t r = .ok a) :
    a.id = "RECUR_" ++ r.account_code ++ "_" ++ r.period_to
    ∧ a.account_code = r.account_code ∧ a.period = r.period_to := by
  unfold mk_recurring_anomaly at h
  dsimp only at h
  split at h
  · simp at h
  · injection h with h
    subst h
    exact ⟨rfl, rfl, rfl⟩

/-- Identifier and locating fields of a quarterly-pass anomaly. -/
theorem mk_quarterly_anomaly_fields (s : Settings) (t : ℚ) (r : VarianceResult) (a : Anomaly)
    (h : mk_quarterly_anomaly s t r = .ok a) :
    a.id = "QUART_" ++ r.account_code ++ "_" ++ r.period_to
    ∧ a.account_code = r.account_code ∧ a.period = r.period_to := by
  unfold mk_quarterly_anomaly at h
  dsimp only at h
  split at h
  · simp at h
  · injection h with h
    subst h
    exact ⟨rfl, rfl, rfl⟩

/-- Every anomaly of the variance pass has id VAR_code_period. -/
theorem detect_variance_anomalies_ids (s : Settings) (results : List VarianceResult)
    (out : List Anomaly) (h : detect_variance_anomalies s results = .ok out) :
    ∀ a ∈ out, a.id = "VAR_" ++ a.account_code ++ "_" ++ a.period := by
  induction results generalizing out with
  | nil =>
    simp only [detect_variance_anomalies] at h
    injection h with h
    subst h
    simp
  | cons r rest ih =>
    unfold detect_variance_anomalies at h
    split at h
    · split at h
      · simp at h
      · rename_i a0 hmk
        split at h
        · simp at h
        · rename_i rest_out hrest
          injection h with h
          subst h
          intro a ha
          rcases List.mem_cons.mp ha with heq | hmem
          · obtain ⟨h1, h2, h3⟩ := mk_variance_anomaly_fields s r a0 hmk
            rw [heq, h1, h2, h3]
          · exact ih rest_out hrest a hmem
    · exact ih out h

/-- Every anomaly of the recurring pass has id RECUR_code_period. -/
theorem detect_recurring_anomalies_ids (s : Settings) (results : List VarianceResult)
    (out : List Anomaly) (h : detect_recurring_account_anomalies s results = .ok out) :
    ∀ a ∈ out, a.id = "RECUR_" ++ a.account_code ++ "_" ++ a.period := by
  induction results generalizing out with
  | nil =>
    simp only [detect_recurring_account_anomalies] at h
    injection h with h
    subst h
    simp
  | cons r rest ih =>
    unfold detect_recurring_account_anomalies at h
    split at h
    · dsimp only at h
      split at h
      · split at h
        · simp at h
        · rename_i a0 hmk
          split at h
          · simp at h
          · rename_i rest_out hrest
            injection h with h
            subst h
            intro a ha
            rcases List.mem_cons.mp ha with heq | hmem
            · obtain ⟨h1, h2, h3⟩ := mk_recurring_anomaly_fields s _ r a0 hmk
              rw [heq, h1, h2, h3]
            · exact ih rest_out hrest a hmem
      · exact ih out h
    · exact ih out h

/-- Every anomaly of the quarterly pass has id QUART_code_period. -/
theorem detect_quarterly_anomalies_ids (s : Settings) (results : List VarianceResult)
    (out : List Anomaly) (h : detect_quarterly_pattern_breaks s results = .ok out) :
    ∀ a ∈ out, a.id = "QUART_" ++ a.account_code ++ "_" ++ a.period := by
  induction results generalizing out with
  | nil =>
    simp only [detect_quarterly_pattern_breaks] at h
    injection h with h
    subst h
    simp
  | cons r rest ih =>
    unfold detect_quarterly_pattern_breaks at h
    split at h
    · dsimp only at h
      split at h
      · split at h
        · simp at h
        · rename_i a0 hmk
          split at h
          · simp at h
          · rename_i rest_out hrest
            injection h with h
            subst h
            intro a ha
            rcases List.mem_cons.mp ha with heq | hmem
            · obtain ⟨h1, h2, h3⟩ := mk_quarterly_anomaly_fields s _ r a0 hmk
              rw [heq, h1, h2, h3]
            · exact ih rest_out hrest a hmem
      · exact ih out h
    · exact ih out h

/-- Every anomaly of the sign-change pass has id SIGN_code_period. -/
theorem detect_sign_changes_ids (results : List VarianceResult) (a : Anomaly)
    (h : a ∈ detect_sign_changes results) :
    a.id = "SIGN_" ++ a.account_code ++ "_" ++ a.period := by
  induction results with
  | nil => simp [detect_sign_changes] at h
  | cons r rest ih =>
    unfold detect_sign_changes at h
    split at h
    · rcases List.mem_cons.mp h with heq | hmem
      · subst heq
        rfl
      · exact ih hmem
    · exact ih h

/-- Correlation-pass anomalies derive their id from rule id and primary
account. -/
theorem detect_correlation_anomalies_ids (amap : String → Option AccountInfo)
    (results : List CorrelationResult) (a : Anomaly)
    (h : a ∈ detect_correlation_anomalies amap results) :
    ∃ res ∈ results, a.id = "CORR_" ++ toString res.rule_id ++ "_" ++ res.primary_account
      ∧ a.account_code = res.primary_account ∧ a.period = "Current" := by
  induction results with
  | nil => simp [detect_correlation_anomalies] at h
  | cons res rest ih =>
    unfold detect_correlation_anomalies at h
    split at h
    · rcases List.mem_cons.mp h with heq | hmem
      · subst heq
        exact ⟨res, List.mem_cons_self res rest, rfl, rfl, rfl⟩
      · obtain ⟨r, hr, h1, h2, h3⟩ := ih hmem
        exact ⟨r, List.mem_cons_of_mem res hr, h1, h2, h3⟩
    · obtain ⟨r, hr, h1, h2, h3⟩ := ih h
      exact ⟨r, List.mem_cons_of_mem res hr, h1, h2, h3⟩

/-- C6 amended: every anomaly id is deterministically derived; the variance,
sign-change, recurring and quarterly passes derive it from the detection-type
prefix, the account code and the period, while the correlation pass derives
it from the prefix CORR, the rule id and the primary account code, omitting
the period. -/
theorem C6_deterministic_ids :
    (∀ (s : Settings) (results : List VarianceResult) (out : List Anomaly),
        detect_variance_anomalies s results = .ok out →
        ∀ a ∈ out, a.id = "VAR_" ++ a.account_code ++ "_" ++ a.period)
    ∧ (∀ (amap : String → Option AccountInfo) (results : List CorrelationResult) (a : Anomaly),
        a ∈ detect_correlation_anomalies amap results →
        ∃ res ∈ results,
          a.id = "CORR_" ++ toString res.rule_id ++ "_" ++ res.primary_account
          ∧ a.account_code = res.primary_account ∧ a.period = "Current")
    ∧ (∀ (results : List VarianceResult) (a : Anomaly), a ∈ detect_sign_changes results →
        a.id = "SIGN_" ++ a.account_code ++ "_" ++ a.period)
    ∧ (∀ (s : Settings) (results : List VarianceResult) (out : List Anomaly),
        detect_recurring_account_anomalies s results = .ok out →
        ∀ a ∈ out, a.id = "RECUR_" ++ a.account_code ++ "_" ++ a.period)
    ∧ (∀ (s : Settings) (results : List VarianceResult) (out : List Anomaly),
        detect_quarterly_pattern_breaks s results = .ok out →
        ∀ a ∈ out, a.id = "QUART_" ++ a.account_code ++ "_" ++ a.period) :=
  ⟨detect_variance_anomalies_ids, detect_correlation_anomalies_ids,
   fun results a h => detect_sign_changes_ids results a h,
   detect_recurring_anomalies_ids, detect_quarterly_anomalies_ids⟩

/-- Witness for C6 amended: the concrete correlation anomaly of cres1. -/
theorem C6_deterministic_ids_witness :
    (mk_correlation_anomaly amap0 cres1).id = "CORR_1_217000001" := by
  obtain ⟨res, hres, h1, _, _⟩ := C6_deterministic_ids.2.1 amap0 [cres1]
    (mk_correlation_anomaly amap0 cres1) (by simp [detect_correlation_anomalies, cres1])
  rw [List.mem_singleton] at hres
  subst hres
  rw [h1]
  rfl

/-! ## Claim C8 -/

/-- A configured severity table whose medium tier lacks absolute_threshold. -/
def tblC8 : SeverityTable :=
  [("critical", [("variance_threshold", 20), ("absolute_threshold", 1000000)]),
   ("high", [("variance_threshold", 10), ("absolute_threshold", 500000)]),
   ("medium", [("variance_threshold", 5)])]

/-- Settings configured with tblC8. -/
def sC8 : Settings := { settings0 with severity_levels := some tblC8 }

/-- A significant result with variance percent 3 (below every tier). -/
def rSig3 : VarianceResult :=
  { account_code := "A1",
    account_name := "Account one",
    category := "revenue",
    statement_type := "BS",
    current_value := 1030,
    previous_value := 1000,
    variance_amount := 30,
    variance_percent := 3,
    is_significant := true,
    period_from := "P1",
    period_to := "P2" }

/-- The same result with variance percent 7 (clears the medium percentage). -/
def rSig7 : VarianceResult :=
  { rSig3 with current_value := 1070, variance_amount := 70, variance_percent := 7 }

/-- Settings configured with an empty severity table (critical tier missing). -/
def sNoCrit : Settings := { settings0 with severity_levels := some [] }

/-- Counterexample to C8: the configured table lacks the medium tier
absolute_threshold entry and the input holds one significant result, yet the
variance pass completes without raising, because short-circuit evaluation
never consults the missing entry when the percent (3) misses the tier. -/
theorem C8_counterexample :
    (tblC8.lookup "medium").map (fun tier => tier.lookup "absolute_threshold") = some none
    ∧ get_severity_thresholds sC8 = tblC8
    ∧ rSig3.is_significant = true
    ∧ (detect_variance_anomalies sC8 [rSig3]).toOption.isSome = true :=
  ⟨by decide, rfl, rfl, by decide⟩

/-- The tier chain raises KeyError critical when the critical tier is absent. -/
theorem classify_severity_error_of_no_critical (tbl : SeverityTable)
    (ap aa : ℚ) (h : tbl.lookup "critical" = none) :
    classify_severity tbl ap aa = .error "KeyError: critical" := by
  unfold classify_severity tier_clears dictGet
  rw [h]
  rfl

/-- The tier chain raises KeyError variance_threshold when the critical tier
lacks that entry. -/
theorem classify_severity_error_of_no_vt (tbl : SeverityTable)
    (tier : List (String × ℚ)) (ap aa : ℚ)
    (h1 : tbl.lookup "critical" = some tier)
    (h2 : tier.lookup "variance_threshold" = none) :
    classify_severity tbl ap aa = .error "KeyError: variance_threshold" := by
  unfold classify_severity tier_clears dictGet
  rw [h1]
  dsimp only
  rw [h2]
  rfl

/-- The variance pass propagates a uniformly raising loop body from the first
significant result. -/
theorem detect_variance_anomalies_error_propagation (s : Settings) (e : String)
    (results : List VarianceResult) (r : VarianceResult)
    (hm : r ∈ results) (hsig : r.is_significant = true)
    (herr : ∀ x : VarianceResult, mk_variance_anomaly s x = .error e) :
    detect_variance_anomalies s results = .error e := by
  induction results with
  | nil => simp at hm
  | cons x rest ih =>
    unfold detect_variance_anomalies
    by_cases hx : x.is_significant = true
    · rw [if_pos hx, herr x]
    · rw [if_neg hx]
      rcases List.mem_cons.mp hm with heq | hmem
      · rw [heq] at hsig
        exact absurd hsig hx
      · exact ih hmem

/-- C8 amended: a missing critical tier, or a critical tier without its
variance_threshold entry, makes the variance pass raise whenever it processes
a significant result; a tier lacking only its absolute_threshold entry makes
the pass raise only when a significant result reaches that tier and clears
its percentage threshold, since the Python conjunction short-circuits. -/
theorem C8_missing_tier_raises :
    (∀ (s : Settings) (results : List VarianceResult) (r : VarianceResult),
        (get_severity_thresholds s).lookup "critical" = none →
        r ∈ results → r.is_significant = true →
        detect_variance_anomalies s results = .error "KeyError: critical")
    ∧ (∀ (s : Settings) (results : List VarianceResult) (r : VarianceResult)
        (tier : List (String × ℚ)),
        (get_severity_thresholds s).lookup "critical" = some tier →
        tier.lookup "variance_threshold" = none →
        r ∈ results → r.is_significant = true →
        detect_variance_anomalies s results = .error "KeyError: variance_threshold")
    ∧ detect_variance_anomalies sC8 [rSig7] = .error "KeyError: absolute_threshold" := by
  refine ⟨?_, ?_, by decide⟩
  · intro s results r h hm hsig
    refine detect_variance_anomalies_error_propagation s _ results r hm hsig ?_
    intro x
    unfold mk_variance_anomaly
    dsimp only
    rw [classify_severity_error_of_no_critical _ _ _ h]
  · intro s results r tier h1 h2 hm hsig
    refine detect_variance_anomalies_error_propagation s _ results r hm hsig ?_
    intro x
    unfold mk_variance_anomaly
    dsimp only
    rw [classify_severity_error_of_no_vt _ tier _ _ h1 h2]

/-- Witness for C8 amended: with the critical tier missing the pass raises on
a significant result. -/
theorem C8_missing_tier_raises_witness :
    (detect_variance_anomalies sNoCrit [rSig3]).toOption = none := by
  have h := C8_missing_tier_raises.1 sNoCrit [rSig3] rSig3 rfl
    (List.mem_singleton_self rSig3) rfl
  rw [h]
  rfl

/-! ## Claim C7 -/

/-- Reflexivity of the priority-key order. -/
theorem key_le_refl (x : ℕ × ℚ) : key_le x x = true := by
  unfold key_le
  simp

/-- Transitivity of the priority-key order. -/
theorem key_le_trans (x y z : ℕ × ℚ) (h1 : key_le x y = true) (h2 : key_le y z = true) :
    key_le x z = true := by
  unfold key_le at *
  simp only [Bool.or_eq_true, Bool.and_eq_true, decide_eq_true_eq] at *
  rcases h1 with h1 | ⟨h1e, h1q⟩ <;> rcases h2 with h2 | ⟨h2e, h2q⟩
  · exact Or.inl (lt_trans h1 h2)
  · exact Or.inl (h2e ▸ h1)
  · exact Or.inl (h1e ▸ h2)
  · exact Or.inr ⟨h1e.trans h2e, le_trans h1q h2q⟩

/-- Totality of the priority-key order. -/
theorem key_le_total (x y : ℕ × ℚ) : key_le x y || key_le y x := by
  unfold key_le
  simp only [Bool.or_eq_true, Bool.and_eq_true, decide_eq_true_eq]
  rcases lt_trichotomy x.1 y.1 with h | h | h
  · exact Or.inl (Or.inl h)
  · rcases le_total x.2 y.2 with hq | hq
    · exact Or.inl (Or.inr ⟨h, hq⟩)
    · exact Or.inr (Or.inr ⟨h.symm, hq⟩)
  · exact Or.inr (Or.inl h)

/-- The prioritized list is sorted descending by the priority key. -/
theorem prioritize_anomalies_sorted (anomalies : List Anomaly) :
    (prioritize_anomalies anomalies).Pairwise
      (fun a b => key_le (priority_key b) (priority_key a) = true) := by
  unfold prioritize_anomalies
  refine List.sorted_mergeSort ?_ ?_ anomalies
  · exact fun a b c hab hbc => key_le_trans _ _ _ hbc hab
  · exact fun a b => key_le_total (priority_key b) (priority_key a)

/-- Stability of the prioritization: for every key value, the anomalies with
that key appear in the output exactly as in the input. -/
theorem prioritize_anomalies_filter (anomalies : List Anomaly) (k : ℕ × ℚ) :
    (prioritize_anomalies anomalies).filter (fun a => priority_key a = k)
      = anomalies.filter (fun a => priority_key a = k) := by
  unfold prioritize_anomalies
  have hpair : (anomalies.filter (fun a => priority_key a = k)).Pairwise
      (fun a b => key_le (priority_key b) (priority_key a) = true) := by
    apply List.pairwise_of_forall_mem_list
    intro a ha b hb
    have hka : priority_key a = k := by simpa using List.of_mem_filter ha
    have hkb : priority_key b = k := by simpa using List.of_mem_filter hb
    rw [hka, hkb]
    exact key_le_refl k
  have h1 : List.Sublist (anomalies.filter (fun a => priority_key a = k))
      (anomalies.mergeSort (fun a b => key_le (priority_key b) (priority_key a))) := by
    refine List.sublist_mergeSort ?_ ?_ hpair (List.filter_sublist anomalies)
    · exact fun a b c hab hbc => key_le_trans _ _ _ hbc hab
    · exact fun a b => key_le_total (priority_key b) (priority_key a)
  have h2 := h1.filter (fun a => priority_key a = k)
  rw [List.filter_filter] at h2
  have h3 : (anomalies.filter (fun a => decide (priority_key a = k) &&
      decide (priority_key a = k))) = anomalies.filter (fun a => priority_key a = k) := by
    apply List.filter_congr
    intro a _
    rw [Bool.and_self]
  rw [h3] at h2
  have hperm : List.Perm
      ((anomalies.mergeSort
          (fun a b => key_le (priority_key b) (priority_key a))).filter
            (fun a => priority_key a = k))
      (anomalies.filter (fun a => priority_key a = k)) :=
    (List.mergeSort_perm anomalies _).filter _
  exact (h2.eq_of_length hperm.length_eq.symm).symm

/-- C7: AnomalyDetector.detect returns the concatenation of the five passes
(in source order) sorted stably in descending order of
(severity rank, absolute variance percent or 0), where the rank maps critical
to 4, high to 3, medium to 2, low to 1; sortedness and the per-key filter
identity pin down the stable descending sort. -/
theorem C7_prioritized_output :
    (∀ anomalies : List Anomaly,
        (prioritize_anomalies anomalies).Pairwise
          (fun a b => key_le (priority_key b) (priority_key a) = true)
        ∧ ∀ k : ℕ × ℚ,
            (prioritize_anomalies anomalies).filter (fun a => priority_key a = k)
              = anomalies.filter (fun a => priority_key a = k))
    ∧ severity_order .critical = 4 ∧ severity_order .high = 3
    ∧ severity_order .medium = 2 ∧ severity_order .low = 1
    ∧ (∀ (s : Settings) (amap : String → Option AccountInfo)
        (variance_results : List VarianceResult)
        (correlation_results : List CorrelationResult) (out : List Anomaly),
        detect s amap variance_results correlation_results = .ok out →
        ∃ va ra qa,
          detect_variance_anomalies s variance_results = .ok va
          ∧ detect_recurring_account_anomalies s variance_results = .ok ra
          ∧ detect_quarterly_pattern_breaks s variance_results = .ok qa
          ∧ out = prioritize_anomalies
              (va ++ detect_correlation_anomalies amap correlation_results
               ++ detect_sign_changes variance_results ++ ra ++ qa)) := by
  refine ⟨fun anomalies => ⟨prioritize_anomalies_sorted anomalies,
    prioritize_anomalies_filter anomalies⟩, rfl, rfl, rfl, rfl, ?_⟩
  intro s amap variance_results correlation_results out h
  unfold detect at h
  split at h
  · simp at h
  · rename_i va hva
    split at h
    · simp at h
    · rename_i ra hra
      split at h
      · simp at h
      · rename_i qa hqa
        injection h with h
        exact ⟨va, ra, qa, hva, hra, hqa, h.symm⟩

/-- Witness for C7 at a concrete run: one correlation result, so the
prioritized output is the singleton correlation anomaly. -/
theorem C7_prioritized_output_witness :
    [mk_correlation_anomaly amap0 cres1] = prioritize_anomalies
      (([] : List Anomaly) ++ detect_correlation_anomalies amap0 [cres1]
        ++ detect_sign_changes [] ++ [] ++ []) := by
  have h1 : prioritize_anomalies [mk_correlation_anomaly amap0 cres1] =
      [mk_correlation_anomaly amap0 cres1] := by
    unfold prioritize_anomalies
    exact List.mergeSort_singleton _
  have h0 : detect settings0 amap0 [] [cres1] =
      .ok (prioritize_anomalies [mk_correlation_anomaly amap0 cres1]) := rfl
  rw [h1] at h0
  obtain ⟨va, ra, qa, hva, hra, hqa, hout⟩ :=
    C7_prioritized_output.2.2.2.2.2 settings0 amap0 [] [cres1] _ h0
  simp only [detect_variance_anomalies] at hva
  simp only [detect_recurring_account_anomalies] at hra
  simp only [detect_quarterly_pattern_breaks] at hqa
  injection hva with hva
  injection hra with hra
  injection hqa with hqa
  subst hva
  subst hra
  subst hqa
  exact hout

end VAD
